import Mathlib

/-!
Shallow embedding of the AWS misconfiguration scanner
(`aws_misconfig_scanner`): each Python scanner module becomes a pure Lean
function over an explicit snapshot of the data the AWS API calls would
return.  A successful API call is `Except.ok` carrying the response data;
an exception raised by a call (or by a raw dictionary access) is
`Except.error` carrying the string the Python code would obtain as
`str(e)`.  Python dictionaries built by the scanners (the findings) are
association lists `List (String × String)`, which preserves both the keys
and the insertion order of the original dicts.
-/

/-- A finding, exactly as the Python code builds it: a dict with string
keys and string values, kept in insertion order. -/
abbrev Finding := List (String × String)

/-- Python truthiness of an optional string (`if public_ip:`): a missing
value and the empty string are falsy. -/
def pyTruthyStr : Option String → Bool
  | none => false
  | some s => s ≠ ""

/-- Python truthiness of an optional boolean (`if instance.get(k):`): a
missing value is falsy. -/
def pyTruthyBool : Option Bool → Bool
  | none => false
  | some b => b

/-- How a Python f-string renders an optional value: `None` when absent. -/
def pyOptStr : Option String → String
  | some s => s
  | none => "None"

/-- An entry is the error sentinel appended by a scanner when it catches an
exception: a single-key dict whose only key is `Error`. -/
def isErrorEntry (f : Finding) : Bool :=
  f.map Prod.fst = ["Error"]

/-- Number of error-sentinel entries in a finding list. -/
def errorEntryCount (fs : List Finding) : Nat :=
  fs.countP isErrorEntry

/-! ## Security-group scanner (`modules/sg_scanner.py`) -/

/-- One element of a permission's `IpRanges` list; `CidrIp` is read with
`.get`, so it may be absent. -/
structure IpRange where
  cidrIp : Option String
deriving DecidableEq, Repr

/-- One ingress permission of a security group: `FromPort` and `ToPort`
are read with `.get` and may be absent (all-protocol rules). -/
structure IpPermission where
  fromPort : Option Int
  toPort : Option Int
  ipRanges : List IpRange
deriving DecidableEq, Repr

/-- A security group as the scanner reads it. -/
structure SecurityGroup where
  groupId : String
  ipPermissions : List IpPermission
deriving DecidableEq, Repr

/-- `DANGEROUS_PORTS = [22, 3389, 3306, 5432, 80, 443]`. -/
def DANGEROUS_PORTS : List Int := [22, 3389, 3306, 5432, 80, 443]

/-- Rendering of a port slot in the open-to-world message; after the
normalisation step a missing port has been replaced by the string
`All Ports`. -/
def portStr : Option Int → String
  | some n => toString n
  | none => "All Ports"

/-- The open-to-world issue text. -/
def openIssue (fp tp : Option Int) : String :=
  let f := portStr fp
  let t := portStr tp
  s!"Ports {f}-{t} open to the world (0.0.0.0/0)"

/-- The dangerous-port issue text. -/
def dangerIssue (p : Int) : String :=
  let q := toString p
  s!"Dangerous port {q} open to the world (0.0.0.0/0)"

/-- The body of the `for ip_range in permission.get('IpRanges', [])` loop:
`fp`/`tp` are the ports after the `All Ports` normalisation (`none` means
the string `All Ports` was substituted, so `isinstance(from_port, int)` is
false).  Note the dangerous-port branch tests only the port, not the
CIDR of the range. -/
def scanIpRange (sgId : String) (fp tp : Option Int) (r : IpRange) : List Finding :=
  (if r.cidrIp = some "0.0.0.0/0" then
    [[("SecurityGroup", sgId), ("Issue", openIssue fp tp)]]
   else [])
  ++ (match fp with
      | some p =>
        if p ∈ DANGEROUS_PORTS then
          [[("SecurityGroup", sgId), ("Issue", dangerIssue p)]]
        else []
      | none => [])

/-- `if from_port is None or to_port is None: from_port = to_port = 'All Ports'`:
when either port is missing both slots become the non-int marker. -/
def normPorts (p : IpPermission) : Option Int × Option Int :=
  match p.fromPort, p.toPort with
  | some f, some t => (some f, some t)
  | _, _ => (none, none)

/-- The body of the `for permission in sg.get('IpPermissions', [])` loop. -/
def scanPermission (sgId : String) (p : IpPermission) : List Finding :=
  p.ipRanges.flatMap (scanIpRange sgId (normPorts p).1 (normPorts p).2)

/-- The body of the `for sg in security_groups` loop. -/
def scanGroup (sg : SecurityGroup) : List Finding :=
  sg.ipPermissions.flatMap (scanPermission sg.groupId)

/-- `SGScanner.scan_security_groups`: on a listing exception the caught
error becomes the single `Error` entry; otherwise every group is scanned. -/
def scan_security_groups : Except String (List SecurityGroup) → List Finding
  | .error e => [[("Error", e)]]
  | .ok sgs => sgs.flatMap scanGroup

/-! ## EC2 scanner (`modules/ec2_scanner.py`) -/

/-- An EC2 instance as the scanner reads it.  `InstanceId` is accessed by
direct indexing, so `none` models a raw response that makes
`instance[...]` raise `KeyError`; `PublicIpAddress` is read with `.get`. -/
structure EC2Instance where
  instanceId : Option String
  publicIpAddress : Option String
deriving DecidableEq, Repr

/-- The public-IP issue text. -/
def ec2Issue (iid ip : String) : String :=
  s!"EC2 instance {iid} has a public IP address assigned: {ip}"

/-- The per-instance rule of the EC2 scanner: flag a truthy public IP. -/
def evaluateEC2 (iid : String) (pubIp : Option String) : List Finding :=
  if pyTruthyStr pubIp then
    [[("InstanceId", iid), ("Issue", ec2Issue iid (pyOptStr pubIp))]]
  else []

/-- String form of the KeyError raised by `instance['InstanceId']` on a
response missing that key (Python renders the missing key name). -/
def instanceIdKeyError : String := "KeyError: InstanceId"

/-- The `for instance in reservation['Instances']` loop (reservations are
flattened: the code only iterates them).  A missing `InstanceId` raises,
which the surrounding `except` turns into one `Error` entry appended after
the findings accumulated so far. -/
def ec2Go : List EC2Instance → List Finding
  | [] => []
  | i :: rest =>
    match i.instanceId with
    | none => [[("Error", instanceIdKeyError)]]
    | some iid => evaluateEC2 iid i.publicIpAddress ++ ec2Go rest

/-- `EC2Scanner.scan_ec2_instances`. -/
def scan_ec2_instances : Except String (List EC2Instance) → List Finding
  | .error e => [[("Error", e)]]
  | .ok l => ec2Go l

/-- Sanity check: the message string for instance i-1 with IP 1.2.3.4. -/
example :
    ec2Issue "i-1" "1.2.3.4"
      = "EC2 instance i-1 has a public IP address assigned: 1.2.3.4" := rfl

example :
    scan_security_groups (.ok [⟨"sg-1", [⟨some 22, some 22, [⟨some "0.0.0.0/0"⟩]⟩]⟩])
      = [[("SecurityGroup", "sg-1"), ("Issue", "Ports 22-22 open to the world (0.0.0.0/0)")],
         [("SecurityGroup", "sg-1"), ("Issue", "Dangerous port 22 open to the world (0.0.0.0/0)")]] := by
  decide

/-! ## RDS scanner (`modules/rds_scanner.py`) -/

/-- An RDS instance as the scanner reads it: every checked attribute is
read with `.get`, so each may be absent. -/
structure DBInstance where
  dbInstanceIdentifier : String
  publiclyAccessible : Option Bool
  storageEncrypted : Option Bool
  backupRetentionPeriod : Option Int
deriving DecidableEq, Repr

def rdsPublicMsg : String := "RDS instance is publicly accessible."

def rdsEncryptionMsg : String := "RDS storage encryption is not enabled."

def rdsBackupMsg : String := "No backup retention configured."

/-- The three per-instance checks of the RDS scanner, in source order:
public accessibility (truthiness), storage encryption (negated
truthiness, so a missing flag is flagged), backup retention
(`.get(..., 0) == 0`). -/
def evaluateRDS (d : DBInstance) : List Finding :=
  (if pyTruthyBool d.publiclyAccessible then
    [[("InstanceId", d.dbInstanceIdentifier), ("Issue", rdsPublicMsg)]]
   else [])
  ++ (if pyTruthyBool d.storageEncrypted then []
      else [[("InstanceId", d.dbInstanceIdentifier), ("Issue", rdsEncryptionMsg)]])
  ++ (if d.backupRetentionPeriod.getD 0 = 0 then
        [[("InstanceId", d.dbInstanceIdentifier), ("Issue", rdsBackupMsg)]]
      else [])

/-- `RDSScanner.scan_rds_instances`. -/
def scan_rds_instances : Except String (List DBInstance) → List Finding
  | .error e => [[("Error", e)]]
  | .ok ds => ds.flatMap evaluateRDS

/-! ## Lambda scanner (`modules/lambda_scanner.py`) -/

instance exceptDecEq {ε α : Type} [DecidableEq ε] [DecidableEq α] :
    DecidableEq (Except ε α) := fun x y =>
  match x, y with
  | .ok a, .ok b =>
    if h : a = b then isTrue (congrArg Except.ok h)
    else isFalse (fun hh => h (Except.ok.inj hh))
  | .error a, .error b =>
    if h : a = b then isTrue (congrArg Except.error h)
    else isFalse (fun hh => h (Except.error.inj hh))
  | .ok _, .error _ => isFalse (fun hh => Except.noConfusion hh)
  | .error _, .ok _ => isFalse (fun hh => Except.noConfusion hh)

/-- A Lambda function together with the responses of the two per-function
API calls the scanner makes.  `kmsKeyArn` models `'KMSKeyArn' in function`;
`concurrencyResp` is the `get_function_concurrency` response (its
`ReservedConcurrentExecutions` key may be absent); `policyResp` is the
`get_policy` response (its `Policy` key may be absent).  An `Except.error`
on either call propagates to the scanner's outer handler. -/
structure LambdaFunction where
  functionName : String
  kmsKeyArn : Option String
  concurrencyResp : Except String (Option Int)
  policyResp : Except String (Option String)
deriving DecidableEq, Repr

def lambdaKmsMsg : String := "Environment variables are not encrypted with KMS."

def lambdaConcurrencyMsg : String := "No reserved concurrency set."

def lambdaPolicyMsg : String :=
  "Function has resource policy attached; review for overly permissive access."

/-- The `for function in page['Functions']` loop: the three checks run in
source order, and a raised API call aborts the loop, keeping the findings
already appended and adding one `Error` entry. -/
def lambdaGo : List LambdaFunction → List Finding
  | [] => []
  | f :: rest =>
    let kmsF :=
      if f.kmsKeyArn.isSome then []
      else [[("FunctionName", f.functionName), ("Issue", lambdaKmsMsg)]]
    match f.concurrencyResp with
    | .error e => kmsF ++ [[("Error", e)]]
    | .ok conc =>
      let concF :=
        if conc.isSome then []
        else [[("FunctionName", f.functionName), ("Issue", lambdaConcurrencyMsg)]]
      match f.policyResp with
      | .error e => kmsF ++ concF ++ [[("Error", e)]]
      | .ok pol =>
        let polF :=
          if pol.isSome then
            [[("FunctionName", f.functionName), ("Issue", lambdaPolicyMsg)]]
          else []
        kmsF ++ concF ++ polF ++ lambdaGo rest

/-- `LambdaScanner.scan_lambda_functions`. -/
def scan_lambda_functions : Except String (List LambdaFunction) → List Finding
  | .error e => [[("Error", e)]]
  | .ok fs => lambdaGo fs

/-! ## IAM scanner (`modules/iam_scanner.py`) -/

/-- An IAM policy statement: `Effect`, `Action` and `Resource` are read
with `.get`, so each may be absent. -/
structure IamStatement where
  effect : Option String
  action : Option String
  resource : Option String
deriving DecidableEq, Repr

/-- A customer-managed policy as `list_overly_permissive_policies` reads
it, with the statement list of its default version (after the
single-statement-to-list normalisation). -/
structure IamPolicy where
  policyName : String
  statements : List IamStatement
deriving DecidableEq, Repr

/-- One access key of a user: `LastUsedDate` is read with `.get`. -/
structure AccessKey where
  accessKeyId : String
  lastUsedDate : Option String
deriving DecidableEq, Repr

/-- An IAM user with its access keys and attached policy names. -/
structure IamUser where
  userName : String
  accessKeys : List AccessKey
  attachedPolicies : List String
deriving DecidableEq, Repr

/-- An IAM role with its attached policy names. -/
structure IamRole where
  roleName : String
  attachedPolicies : List String
deriving DecidableEq, Repr

/-- The data the five IAM checks consume, each field an API response that
may raise.  `summary` carries the `AccountMFAEnabled` value of the
`SummaryMap` (absent key modelled as `none`). -/
structure IAMEnv where
  summary : Except String (Option Int)
  policies : Except String (List IamPolicy)
  users : Except String (List IamUser)
  roles : Except String (List IamRole)
deriving DecidableEq, Repr

def rootMfaMsg : String :=
  "Root account does not have MFA enabled. This is a security risk."

/-- `check_root_account_usage` after a successful `get_account_summary`:
`SummaryMap.get('AccountMFAEnabled', 0)` defaults an absent flag to 0 and
the finding is appended exactly when the value is 0. -/
def check_root_account_usage (flag : Option Int) (findings : List Finding) :
    List Finding :=
  if flag.getD 0 = 0 then findings ++ [[("Issue", rootMfaMsg)]] else findings

def overlyPermissiveMsg (name : String) : String :=
  s!"Overly permissive policy found: {name}"

/-- `list_overly_permissive_policies`, per policy: one finding per
statement with `Effect == 'Allow'`, `Action == '*'`, `Resource == '*'`. -/
def overlyPermissive (p : IamPolicy) : List Finding :=
  p.statements.flatMap fun s =>
    if s.effect = some "Allow" ∧ s.action = some "*" ∧ s.resource = some "*" then
      [[("PolicyName", p.policyName), ("Issue", overlyPermissiveMsg p.policyName)]]
    else []

def neverUsedMsg (keyId user : String) : String :=
  s!"Access key {keyId} for user {user} has never been used."

/-- `check_inactive_access_keys`, per user: a key whose
`LastUsedDate` is falsy is flagged as never used. -/
def inactiveKeys (u : IamUser) : List Finding :=
  u.accessKeys.flatMap fun k =>
    if pyTruthyStr k.lastUsedDate then []
    else [[("UserName", u.userName), ("AccessKeyId", k.accessKeyId),
           ("Issue", neverUsedMsg k.accessKeyId u.userName)]]

def userAdminMsg (user : String) : String :=
  s!"IAM User {user} has AdministratorAccess attached."

/-- `check_users_for_admin_access`, per user: one finding per attached
policy named `AdministratorAccess`. -/
def userAdmin (u : IamUser) : List Finding :=
  u.attachedPolicies.flatMap fun pn =>
    if pn = "AdministratorAccess" then
      [[("UserName", u.userName), ("Issue", userAdminMsg u.userName)]]
    else []

def roleAdminMsg (role : String) : String :=
  s!"IAM Role {role} has AdministratorAccess attached."

/-- `check_roles_for_admin_access`, per role. -/
def roleAdmin (r : IamRole) : List Finding :=
  r.attachedPolicies.flatMap fun pn =>
    if pn = "AdministratorAccess" then
      [[("RoleName", r.roleName), ("Issue", roleAdminMsg r.roleName)]]
    else []

/-- `IAMScanner.run_all_checks`: the five checks run sequentially inside
one `try`; the first raising API call stops the sequence, keeping the
findings appended so far and adding one `Error` entry.  The user listing
is consumed by both the access-key check and the user-admin check. -/
def run_all_checks (env : IAMEnv) : List Finding :=
  match env.summary with
  | .error e => [[("Error", e)]]
  | .ok flag =>
    let f1 := check_root_account_usage flag []
    match env.policies with
    | .error e => f1 ++ [[("Error", e)]]
    | .ok ps =>
      let f2 := f1 ++ ps.flatMap overlyPermissive
      match env.users with
      | .error e => f2 ++ [[("Error", e)]]
      | .ok us =>
        let f3 := f2 ++ us.flatMap inactiveKeys ++ us.flatMap userAdmin
        match env.roles with
        | .error e => f3 ++ [[("Error", e)]]
        | .ok rs => f3 ++ rs.flatMap roleAdmin

/-! ## S3 scanner (`modules/s3_scanner.py`) -/

/-- One ACL grant: `Grantee` (and its `URI`) and `Permission` are read
with `.get`. -/
structure Grant where
  granteeURI : Option String
  permission : Option String
deriving DecidableEq, Repr

/-- Outcome of `get_bucket_policy_status`.  Every exception raised here is
caught locally (the `NoSuchBucketPolicy` client error, other client
errors and any other exception are each only logged), so the error
variant produces no finding and never reaches the outer handler. -/
inductive PolResp where
  | ok (isPublic : Option Bool)
  | err (detail : String)
deriving DecidableEq, Repr

/-- Outcome of `get_bucket_encryption`.  The local handler catches only
`botocore.exceptions.ClientError` (with the error code inspected); any
other exception propagates to the scanner's outer handler. -/
inductive EncResp where
  | ok (rules : List Unit)
  | clientError (code : String)
  | otherError (detail : String)
deriving DecidableEq, Repr

/-- A bucket with the responses of the four per-bucket API calls.
`aclResp` and `versioningResp` have no local handler, so their errors
propagate to the outer handler. -/
structure S3Bucket where
  name : String
  aclResp : Except String (List Grant)
  policyStatus : PolResp
  encryption : EncResp
  versioningResp : Except String (Option String)
deriving DecidableEq, Repr

def allUsersURI : String := "http://acs.amazonaws.com/groups/global/AllUsers"

def aclPublicMsg (perm : Option String) : String :=
  let p := pyOptStr perm
  s!"Bucket ACL allows public access ({p})."

def policyPublicMsg : String := "Bucket policy allows public access."

def noEncryptionMsg : String := "No server-side encryption configured."

def noVersioningMsg : String := "Bucket versioning is not enabled."

/-- The ACL findings of one bucket: one per grant to the all-users URI. -/
def aclFindings (name : String) (grants : List Grant) : List Finding :=
  grants.flatMap fun g =>
    if g.granteeURI = some allUsersURI then
      [[("Bucket", name), ("Issue", aclPublicMsg g.permission)]]
    else []

/-- The policy-status finding of one bucket (errors swallowed locally). -/
def policyFindings (name : String) : PolResp → List Finding
  | .ok isPublic =>
    if pyTruthyBool isPublic then
      [[("Bucket", name), ("Issue", policyPublicMsg)]]
    else []
  | .err _ => []

/-- One iteration of the `for bucket in buckets` loop: the findings the
bucket contributes, paired with the exception (if any) that escapes to the
outer handler after those findings were already appended. -/
def scanBucket (b : S3Bucket) : List Finding × Option String :=
  match b.aclResp with
  | .error e => ([], some e)
  | .ok grants =>
    let f1 := aclFindings b.name grants ++ policyFindings b.name b.policyStatus
    match b.encryption with
    | .otherError e => (f1, some e)
    | .clientError code =>
      let f2 := f1 ++
        (if code = "ServerSideEncryptionConfigurationNotFoundError" then
          [[("Bucket", b.name), ("Issue", noEncryptionMsg)]]
         else [])
      match b.versioningResp with
      | .error e => (f2, some e)
      | .ok status =>
        (f2 ++
          (if status = some "Enabled" then []
           else [[("Bucket", b.name), ("Issue", noVersioningMsg)]]), none)
    | .ok rules =>
      let f2 := f1 ++
        (if rules.isEmpty then [[("Bucket", b.name), ("Issue", noEncryptionMsg)]]
         else [])
      match b.versioningResp with
      | .error e => (f2, some e)
      | .ok status =>
        (f2 ++
          (if status = some "Enabled" then []
           else [[("Bucket", b.name), ("Issue", noVersioningMsg)]]), none)

/-- The bucket loop: an escaping exception keeps the findings accumulated
so far and appends one `Error` entry. -/
def s3Go : List S3Bucket → List Finding
  | [] => []
  | b :: rest =>
    match scanBucket b with
    | (fs, some e) => fs ++ [[("Error", e)]]
    | (fs, none) => fs ++ s3Go rest

/-- `S3Scanner.scan_s3_buckets`. -/
def scan_s3_buckets : Except String (List S3Bucket) → List Finding
  | .error e => [[("Error", e)]]
  | .ok bs => s3Go bs

/-! ## Orchestrator (`main.py`) -/

/-- The snapshot of provider data each of the six scanners consumes. -/
structure ScanEnv where
  ec2 : Except String (List EC2Instance)
  iam : IAMEnv
  lambdaFns : Except String (List LambdaFunction)
  rds : Except String (List DBInstance)
  sg : Except String (List SecurityGroup)
  s3 : Except String (List S3Bucket)
deriving DecidableEq, Repr

/-- The keys of the findings dict of `run_all_scans`, in insertion order. -/
def serviceKeys : List String :=
  ["EC2", "IAM", "Lambda", "RDS", "SecurityGroups", "S3"]

/-- `AWSMisconfigurationScanner.run_all_scans`: each scanner runs once, in
the declared order, and its result is stored under its service key (the
Python dict preserves insertion order, modelled as an association list). -/
def run_all_scans (env : ScanEnv) : List (String × List Finding) :=
  [("EC2", scan_ec2_instances env.ec2),
   ("IAM", run_all_checks env.iam),
   ("Lambda", scan_lambda_functions env.lambdaFns),
   ("RDS", scan_rds_instances env.rds),
   ("SecurityGroups", scan_security_groups env.sg),
   ("S3", scan_s3_buckets env.s3)]

/-! ## Concrete inputs used by the claims -/

/-- A security group whose only ingress rule opens port 22 to the
restricted range 10.0.0.0/8 only. -/
def sgRestricted : SecurityGroup :=
  ⟨"sg-1", [⟨some 22, some 22, [⟨some "10.0.0.0/8"⟩]⟩]⟩

/-- A security group whose only ingress rule opens port 22 to
0.0.0.0/0. -/
def sgOpen22 : SecurityGroup :=
  ⟨"sg-2", [⟨some 22, some 22, [⟨some "0.0.0.0/0"⟩]⟩]⟩

/-- C1: the spec requires a dangerous-port finding exactly when the
range's CIDR is 0.0.0.0/0 and the from-port is dangerous, and no
dangerous-port finding for a restricted CIDR.  The code checks only the
port: the restricted-CIDR rule on port 22 yields a dangerous-port finding
whose message even claims the port is open to the world, contradicting
the scanner's own message and docstring.  The 0.0.0.0/0 half of the claim
(two findings for the open rule) does hold. -/
theorem C1_dangerous_port_check_ignores_cidr :
    scan_security_groups (.ok [sgRestricted])
      = [[("SecurityGroup", "sg-1"),
          ("Issue", "Dangerous port 22 open to the world (0.0.0.0/0)")]]
    ∧ scan_security_groups (.ok [sgOpen22])
      = [[("SecurityGroup", "sg-2"),
          ("Issue", "Ports 22-22 open to the world (0.0.0.0/0)")],
         [("SecurityGroup", "sg-2"),
          ("Issue", "Dangerous port 22 open to the world (0.0.0.0/0)")]] := by
  exact ⟨rfl, rfl⟩

/-- C6: `run_all_scans` stores, in the declared order EC2, IAM, Lambda,
RDS, SecurityGroups, S3, exactly the finding list each scanner returns
for its service key. -/
theorem C6_orchestrator_order_and_content (env : ScanEnv) :
    (run_all_scans env).map Prod.fst = serviceKeys
    ∧ List.lookup "EC2" (run_all_scans env) = some (scan_ec2_instances env.ec2)
    ∧ List.lookup "IAM" (run_all_scans env) = some (run_all_checks env.iam)
    ∧ List.lookup "Lambda" (run_all_scans env) = some (scan_lambda_functions env.lambdaFns)
    ∧ List.lookup "RDS" (run_all_scans env) = some (scan_rds_instances env.rds)
    ∧ List.lookup "SecurityGroups" (run_all_scans env) = some (scan_security_groups env.sg)
    ∧ List.lookup "S3" (run_all_scans env) = some (scan_s3_buckets env.s3) := by
  refine ⟨rfl, ?_, ?_, ?_, ?_, ?_, ?_⟩ <;> simp [run_all_scans, List.lookup]

/-- A trivial environment snapshot used by witnesses. -/
def env0 : ScanEnv :=
  ⟨.ok [], ⟨.ok (some 1), .ok [], .ok [], .ok []⟩, .ok [], .ok [], .ok [], .ok []⟩

/-- Witness for C6 at a concrete environment. -/
theorem C6_orchestrator_order_and_content_witness :
    (run_all_scans env0).map Prod.fst = serviceKeys
    ∧ List.lookup "EC2" (run_all_scans env0) = some (scan_ec2_instances env0.ec2)
    ∧ List.lookup "IAM" (run_all_scans env0) = some (run_all_checks env0.iam)
    ∧ List.lookup "Lambda" (run_all_scans env0) = some (scan_lambda_functions env0.lambdaFns)
    ∧ List.lookup "RDS" (run_all_scans env0) = some (scan_rds_instances env0.rds)
    ∧ List.lookup "SecurityGroups" (run_all_scans env0) = some (scan_security_groups env0.sg)
    ∧ List.lookup "S3" (run_all_scans env0) = some (scan_s3_buckets env0.s3) :=
  C6_orchestrator_order_and_content env0

/-- The finding the EC2 scanner emits for instance i-1 with public IP
1.2.3.4. -/
def i1Finding : Finding :=
  [("InstanceId", "i-1"),
   ("Issue", "EC2 instance i-1 has a public IP address assigned: 1.2.3.4")]

/-- C7 counterexample: the finding emitted for instance i-1 with public
IP 1.2.3.4 is a dict with exactly the keys `InstanceId` and `Issue`: it
carries no severity, rule-identifier or service field at all, so the
claimed severity drawn from info/warning/high is not part of the
finding. -/
theorem C7_counterexample_no_severity_field :
    scan_ec2_instances (.ok [⟨some "i-1", some "1.2.3.4"⟩]) = [i1Finding]
    ∧ i1Finding.map Prod.fst = ["InstanceId", "Issue"]
    ∧ List.lookup "severity" i1Finding = none
    ∧ List.lookup "rule_id" i1Finding = none
    ∧ List.lookup "service" i1Finding = none := by
  exact ⟨rfl, rfl, rfl, rfl, rfl⟩

/-- C7 amended: every finding the EC2 scanner emits for a misconfigured
instance carries the resource identifier (key `InstanceId`) and a message
(key `Issue`) and nothing else; the i-1/1.2.3.4 scenario yields exactly
that finding with the expected identifier and message. -/
theorem C7_finding_shape (insts : List EC2Instance)
    (h : ∀ i ∈ insts, i.instanceId.isSome) :
    (∀ f ∈ ec2Go insts, f.map Prod.fst = ["InstanceId", "Issue"])
    ∧ scan_ec2_instances (.ok [⟨some "i-1", some "1.2.3.4"⟩]) = [i1Finding] := by
  refine ⟨?_, rfl⟩
  induction insts with
  | nil => simp [ec2Go]
  | cons i rest ih =>
    have hi : i.instanceId.isSome := h i (List.mem_cons_self i rest)
    rcases hiid : i.instanceId with _ | iid
    · rw [hiid] at hi; cases hi
    · intro f hf
      rw [ec2Go, hiid] at hf
      rcases List.mem_append.mp hf with hf | hf
      · unfold evaluateEC2 at hf
        split at hf
        · simp at hf; rw [hf]; rfl
        · cases hf
      · exact ih (fun j hj => h j (List.mem_cons_of_mem i hj)) f hf

/-- Witness for C7 amended, at the single instance of the scenario. -/
theorem C7_finding_shape_witness :
    (∀ i ∈ [(⟨some "i-1", some "1.2.3.4"⟩ : EC2Instance)], i.instanceId.isSome)
    ∧ ((∀ f ∈ ec2Go [(⟨some "i-1", some "1.2.3.4"⟩ : EC2Instance)],
          f.map Prod.fst = ["InstanceId", "Issue"])
       ∧ scan_ec2_instances (.ok [⟨some "i-1", some "1.2.3.4"⟩]) = [i1Finding]) :=
  ⟨by decide, C7_finding_shape [⟨some "i-1", some "1.2.3.4"⟩] (by decide)⟩

/-- C8: rule evaluation is deterministic and context-free: evaluating the
RDS rules twice on identical input yields identical findings, the scan is
a pure function of the listing response, and the exception-free scan is
the concatenation of a pure per-instance evaluation (no state flows
between resources, and no input is mutated — resources are values). -/
theorem C8_evaluation_deterministic (d1 d2 : DBInstance)
    (e1 e2 : Except String (List DBInstance)) (ds : List DBInstance)
    (hd : d1 = d2) (he : e1 = e2) :
    evaluateRDS d1 = evaluateRDS d2
    ∧ scan_rds_instances e1 = scan_rds_instances e2
    ∧ scan_rds_instances (.ok ds) = ds.flatMap evaluateRDS :=
  ⟨congrArg evaluateRDS hd, congrArg scan_rds_instances he, rfl⟩

/-- An RDS instance with every attribute present and compliant. -/
def db0 : DBInstance := ⟨"db-1", some false, some true, some 7⟩

/-- Witness for C8 at a concrete instance and response. -/
theorem C8_evaluation_deterministic_witness :
    db0 = db0
    ∧ (evaluateRDS db0 = evaluateRDS db0
       ∧ scan_rds_instances (.ok [db0]) = scan_rds_instances (.ok [db0])
       ∧ scan_rds_instances (.ok [db0]) = [db0].flatMap evaluateRDS) :=
  ⟨rfl, (C8_evaluation_deterministic db0 db0 (.ok [db0]) (.ok [db0]) [db0] rfl rfl).1,
        (C8_evaluation_deterministic db0 db0 (.ok [db0]) (.ok [db0]) [db0] rfl rfl).2.1,
        (C8_evaluation_deterministic db0 db0 (.ok [db0]) (.ok [db0]) [db0] rfl rfl).2.2⟩

/-- C9: an ingress permission that omits `FromPort` or `ToPort` has both
ports replaced by the string `All Ports`, so each 0.0.0.0/0 range yields
exactly one open-to-world finding whose message reports `All Ports`, and
the `isinstance(from_port, int)` guard makes the dangerous-port branch
unreachable, so no dangerous-port finding is ever emitted for such a
permission. -/
theorem C9_all_ports_permission (sgId : String) (p : IpPermission)
    (h : p.fromPort = none ∨ p.toPort = none) :
    scanPermission sgId p
      = p.ipRanges.flatMap (fun r =>
          if r.cidrIp = some "0.0.0.0/0" then
            [[("SecurityGroup", sgId),
              ("Issue", "Ports All Ports-All Ports open to the world (0.0.0.0/0)")]]
          else []) := by
  have hnorm : normPorts p = (none, none) := by
    rcases p with ⟨fp, tp, rs⟩
    rcases h with h | h
    · simp only at h; subst h; cases tp <;> rfl
    · simp only at h; subst h; cases fp <;> rfl
  unfold scanPermission
  rw [hnorm]
  apply List.flatMap_congr
  intro r _
  have hmsg : openIssue none none
      = "Ports All Ports-All Ports open to the world (0.0.0.0/0)" := rfl
  simp [scanIpRange, hmsg]

/-- A permission omitting its from-port, with one world-open range and one
restricted range. -/
def permAllPorts : IpPermission :=
  ⟨none, some 443, [⟨some "0.0.0.0/0"⟩, ⟨some "10.0.0.0/8"⟩]⟩

/-- Witness for C9: the all-ports permission yields exactly one
open-to-world finding for its 0.0.0.0/0 range and nothing else. -/
theorem C9_all_ports_permission_witness :
    (permAllPorts.fromPort = none ∨ permAllPorts.toPort = none)
    ∧ scanPermission "sg-9" permAllPorts
        = [[("SecurityGroup", "sg-9"),
            ("Issue", "Ports All Ports-All Ports open to the world (0.0.0.0/0)")]] := by
  refine ⟨Or.inl rfl, ?_⟩
  rw [C9_all_ports_permission "sg-9" permAllPorts (Or.inl rfl)]
  rfl

/-- Per-instance evaluation never emits an error-sentinel entry. -/
lemma evaluateEC2_no_error (iid : String) (p : Option String) :
    errorEntryCount (evaluateEC2 iid p) = 0 := by
  unfold evaluateEC2
  split <;> simp [errorEntryCount, isErrorEntry]

/-- An instance list whose ids are all present scans without error
entries. -/
lemma ec2Go_clean (pre : List EC2Instance)
    (h : ∀ i ∈ pre, i.instanceId.isSome) :
    errorEntryCount (ec2Go pre) = 0 := by
  induction pre with
  | nil => rfl
  | cons i p ih =>
    have hi := h i (List.mem_cons_self i p)
    rcases hiid : i.instanceId with _ | iid
    · rw [hiid] at hi; cases hi
    · have ihp := ih (fun j hj => h j (List.mem_cons_of_mem i hj))
      have he := evaluateEC2_no_error iid i.publicIpAddress
      simp only [ec2Go, hiid, errorEntryCount, List.countP_append] at *
      omega

/-- The loop keeps the findings of the instances before the first raising
one and appends exactly the error sentinel. -/
lemma ec2Go_stops_at_bad (pre : List EC2Instance) (bad : EC2Instance)
    (rest : List EC2Instance) (h : ∀ i ∈ pre, i.instanceId.isSome)
    (hbad : bad.instanceId = none) :
    ec2Go (pre ++ bad :: rest) = ec2Go pre ++ [[("Error", instanceIdKeyError)]] := by
  induction pre with
  | nil => simp [ec2Go, hbad]
  | cons i p ih =>
    have hi := h i (List.mem_cons_self i p)
    rcases hiid : i.instanceId with _ | iid
    · rw [hiid] at hi; cases hi
    · have ihp := ih (fun j hj => h j (List.mem_cons_of_mem i hj))
      simp [ec2Go, hiid, ihp]

/-- C2: a raised listing call becomes the single error-sentinel entry
carrying `str(e)`; a raise at the Nth resource keeps the findings of the
first N-1 resources and appends exactly one sentinel; and the
orchestrator still records every other service's findings (here RDS and
S3) when the EC2 scan failed, because the exception never leaves the
scanner. -/
theorem C2_service_failure_isolated (e : String) (pre : List EC2Instance)
    (bad : EC2Instance) (rest : List EC2Instance) (env : ScanEnv)
    (hpre : ∀ i ∈ pre, i.instanceId.isSome) (hbad : bad.instanceId = none) :
    scan_ec2_instances (.error e) = [[("Error", e)]]
    ∧ scan_ec2_instances (.ok (pre ++ bad :: rest))
        = ec2Go pre ++ [[("Error", instanceIdKeyError)]]
    ∧ errorEntryCount (scan_ec2_instances (.ok (pre ++ bad :: rest))) = 1
    ∧ (run_all_scans { env with ec2 := .error e }).map Prod.fst = serviceKeys
    ∧ List.lookup "RDS" (run_all_scans { env with ec2 := .error e })
        = some (scan_rds_instances env.rds)
    ∧ List.lookup "S3" (run_all_scans { env with ec2 := .error e })
        = some (scan_s3_buckets env.s3) := by
  refine ⟨rfl, ec2Go_stops_at_bad pre bad rest hpre hbad, ?_, rfl, ?_, ?_⟩
  · show errorEntryCount (ec2Go (pre ++ bad :: rest)) = 1
    rw [ec2Go_stops_at_bad pre bad rest hpre hbad]
    have h0 := ec2Go_clean pre hpre
    simp only [errorEntryCount, List.countP_append] at *
    rw [h0]
    rfl
  · simp [run_all_scans, List.lookup]
  · simp [run_all_scans, List.lookup]

def ec2Good : EC2Instance := ⟨some "i-1", some "1.2.3.4"⟩

def ec2Bad : EC2Instance := ⟨none, none⟩

/-- Witness for C2 at a one-good-one-raising instance list. -/
theorem C2_service_failure_isolated_witness :
    (∀ i ∈ [ec2Good], i.instanceId.isSome) ∧ ec2Bad.instanceId = none
    ∧ (scan_ec2_instances (.error "boom") = [[("Error", "boom")]]
       ∧ scan_ec2_instances (.ok ([ec2Good] ++ ec2Bad :: []))
           = ec2Go [ec2Good] ++ [[("Error", instanceIdKeyError)]]
       ∧ errorEntryCount (scan_ec2_instances (.ok ([ec2Good] ++ ec2Bad :: []))) = 1
       ∧ (run_all_scans { env0 with ec2 := .error "boom" }).map Prod.fst = serviceKeys
       ∧ List.lookup "RDS" (run_all_scans { env0 with ec2 := .error "boom" })
           = some (scan_rds_instances env0.rds)
       ∧ List.lookup "S3" (run_all_scans { env0 with ec2 := .error "boom" })
           = some (scan_s3_buckets env0.s3)) :=
  ⟨by decide, rfl,
   C2_service_failure_isolated "boom" [ec2Good] ec2Bad [] env0 (by decide) rfl⟩

/-- C3: a Lambda function whose `get_policy` response has no `Policy` key
is handled by the `'Policy' in policy` membership test: no resource-policy
finding is emitted for it, no error entry is produced for it, and the
loop proceeds to the remaining functions. -/
theorem C3_missing_policy_is_not_a_failure (f : LambdaFunction)
    (rest : List LambdaFunction) (c : Option Int)
    (hc : f.concurrencyResp = .ok c) (hp : f.policyResp = .ok none) :
    scan_lambda_functions (.ok (f :: rest)) = lambdaGo [f] ++ lambdaGo rest
    ∧ (∀ g ∈ lambdaGo [f], List.lookup "Issue" g ≠ some lambdaPolicyMsg)
    ∧ errorEntryCount (lambdaGo [f]) = 0 := by
  rcases f with ⟨name, kms, cr, pr⟩
  simp only at hc hp
  subst hc hp
  refine ⟨?_, ?_, ?_⟩
  · show lambdaGo _ = _
    cases kms <;> cases c <;>
      simp [lambdaGo, lambdaKmsMsg, lambdaConcurrencyMsg]
  · cases kms <;> cases c <;>
      simp [lambdaGo, List.lookup, lambdaKmsMsg, lambdaConcurrencyMsg, lambdaPolicyMsg]
  · cases kms <;> cases c <;>
      simp [lambdaGo, errorEntryCount, isErrorEntry]

/-- A function with no KMS key, no concurrency setting, and a policy
response without a `Policy` key. -/
def lam0 : LambdaFunction := ⟨"fn-1", none, .ok none, .ok none⟩

/-- A second function used as the remainder of the listing. -/
def lam1 : LambdaFunction := ⟨"fn-2", some "arn:kms", .ok (some 5), .ok (some "doc")⟩

/-- Witness for C3 at a concrete function pair. -/
theorem C3_missing_policy_is_not_a_failure_witness :
    lam0.concurrencyResp = .ok none ∧ lam0.policyResp = .ok none
    ∧ (scan_lambda_functions (.ok (lam0 :: [lam1])) = lambdaGo [lam0] ++ lambdaGo [lam1]
       ∧ (∀ g ∈ lambdaGo [lam0], List.lookup "Issue" g ≠ some lambdaPolicyMsg)
       ∧ errorEntryCount (lambdaGo [lam0]) = 0) :=
  ⟨rfl, rfl, C3_missing_policy_is_not_a_failure lam0 [lam1] none rfl rfl⟩

/-- C4: the documented fail-closed defaults.  An EC2 instance whose
attributes lack `PublicIpAddress` produces no public-IP finding, while an
RDS instance whose attributes lack `StorageEncrypted` produces the
missing-encryption finding exactly once. -/
theorem C4_missing_attribute_defaults (iid : String) (d : DBInstance)
    (hd : d.storageEncrypted = none) :
    evaluateEC2 iid none = []
    ∧ (evaluateRDS d).countP
        (fun f => List.lookup "Issue" f == some rdsEncryptionMsg) = 1 := by
  refine ⟨rfl, ?_⟩
  rcases d with ⟨did, pub, enc, bak⟩
  simp only at hd
  subst hd
  unfold evaluateRDS
  rw [List.countP_append, List.countP_append]
  have h1 : List.countP
      (fun f => List.lookup "Issue" f == some rdsEncryptionMsg)
      (if pyTruthyBool pub then [[("InstanceId", did), ("Issue", rdsPublicMsg)]] else [])
      = 0 := by
    split <;> simp [List.lookup, rdsPublicMsg, rdsEncryptionMsg]
  have h2 : List.countP
      (fun f => List.lookup "Issue" f == some rdsEncryptionMsg)
      (if (bak.getD 0 = 0) then [[("InstanceId", did), ("Issue", rdsBackupMsg)]] else [])
      = 0 := by
    split <;> simp [List.lookup, rdsBackupMsg, rdsEncryptionMsg]
  rw [h1, h2]
  simp [pyTruthyBool, List.lookup]

/-- An RDS instance whose response lacks the `StorageEncrypted` key. -/
def dbNoEnc : DBInstance := ⟨"db-2", some false, none, some 7⟩

/-- Witness for C4 at a concrete instance. -/
theorem C4_missing_attribute_defaults_witness :
    dbNoEnc.storageEncrypted = none
    ∧ (evaluateEC2 "i-9" none = []
       ∧ (evaluateRDS dbNoEnc).countP
           (fun f => List.lookup "Issue" f == some rdsEncryptionMsg) = 1) :=
  ⟨rfl, C4_missing_attribute_defaults "i-9" dbNoEnc rfl⟩

/-- An all-users ACL grant with the given permission string. -/
def auGrant (p : String) : Grant := ⟨some allUsersURI, some p⟩

/-- A bucket with five public ACL grants, a public policy, no encryption
configuration and versioning disabled. -/
def cexBucket : S3Bucket :=
  ⟨"b1",
   .ok [auGrant "READ", auGrant "WRITE", auGrant "READ_ACP",
        auGrant "WRITE_ACP", auGrant "FULL_CONTROL"],
   .ok (some true),
   .clientError "ServerSideEncryptionConfigurationNotFoundError",
   .ok none⟩

/-- C5 counterexample: the S3 scanner appends one finding per public ACL
grant, so a single bucket with five all-users grants yields eight
findings, exceeding the claimed bound of one resource times the four
object-storage rules. -/
theorem C5_counterexample_bucket_exceeds_bound :
    (scan_s3_buckets (.ok [cexBucket])).length = 8
    ∧ ¬ ((scan_s3_buckets (.ok [cexBucket])).length
          ≤ ([cexBucket] : List S3Bucket).length * 4) :=
  ⟨rfl, by decide⟩

/-- The number of rule-evaluation sites of a bucket: one per ACL grant
plus the policy, encryption and versioning checks. -/
def s3Sites (b : S3Bucket) : Nat :=
  (match b.aclResp with | .ok gs => gs.length | .error _ => 0) + 3

/-- The number of (range, rule-pair) evaluation sites of a security
group: the total number of IP ranges over all its permissions. -/
def sgSites (sg : SecurityGroup) : Nat :=
  (sg.ipPermissions.map (fun p => p.ipRanges.length)).sum

/-- No per-bucket API call escapes to the outer handler. -/
def bucketNoExc (b : S3Bucket) : Bool :=
  (match b.aclResp with | .ok _ => true | .error _ => false)
  && (match b.encryption with | .otherError _ => false | _ => true)
  && (match b.versioningResp with | .ok _ => true | .error _ => false)

lemma aclFindings_length_le (name : String) (gs : List Grant) :
    (aclFindings name gs).length ≤ gs.length := by
  induction gs with
  | nil => simp [aclFindings]
  | cons g gs ih =>
    have hstep : aclFindings name (g :: gs)
        = (if g.granteeURI = some allUsersURI then
            [[("Bucket", name), ("Issue", aclPublicMsg g.permission)]]
           else [])
          ++ aclFindings name gs := by
      simp [aclFindings]
    rw [hstep, List.length_append]
    have h1 : (if g.granteeURI = some allUsersURI then
        [[("Bucket", name), ("Issue", aclPublicMsg g.permission)]]
       else ([] : List Finding)).length ≤ 1 := by
      split <;> simp
    simp only [List.length_cons]
    omega

lemma policyFindings_length_le (name : String) (pol : PolResp) :
    (policyFindings name pol).length ≤ 1 := by
  cases pol with
  | ok isPublic =>
    show (if pyTruthyBool isPublic then
        [[("Bucket", name), ("Issue", policyPublicMsg)]] else []).length ≤ 1
    split <;> simp
  | err d => exact Nat.zero_le 1

lemma scanBucket_noExc (b : S3Bucket) (h : bucketNoExc b = true) :
    (scanBucket b).2 = none ∧ (scanBucket b).1.length ≤ s3Sites b := by
  rcases b with ⟨name, acl, pol, enc, vers⟩
  rcases acl with e | gs
  · simp [bucketNoExc] at h
  rcases vers with e | st
  · simp [bucketNoExc] at h
  have hacl := aclFindings_length_le name gs
  have hpol := policyFindings_length_le name pol
  cases enc with
  | otherError d => simp [bucketNoExc] at h
  | clientError code =>
    refine ⟨rfl, ?_⟩
    show ((aclFindings name gs ++ policyFindings name pol
        ++ (if code = "ServerSideEncryptionConfigurationNotFoundError" then
              [[("Bucket", name), ("Issue", noEncryptionMsg)]] else []))
        ++ (if st = some "Enabled" then []
            else [[("Bucket", name), ("Issue", noVersioningMsg)]])).length
      ≤ s3Sites ⟨name, .ok gs, pol, .clientError code, .ok st⟩
    have h3 : (if code = "ServerSideEncryptionConfigurationNotFoundError" then
        [[("Bucket", name), ("Issue", noEncryptionMsg)]]
       else ([] : List Finding)).length ≤ 1 := by split <;> simp
    have h4 : (if st = some "Enabled" then ([] : List Finding)
        else [[("Bucket", name), ("Issue", noVersioningMsg)]]).length ≤ 1 := by
      split <;> simp
    simp only [List.length_append, s3Sites]
    omega
  | ok rules =>
    refine ⟨rfl, ?_⟩
    show ((aclFindings name gs ++ policyFindings name pol
        ++ (if rules.isEmpty then
              [[("Bucket", name), ("Issue", noEncryptionMsg)]] else []))
        ++ (if st = some "Enabled" then []
            else [[("Bucket", name), ("Issue", noVersioningMsg)]])).length
      ≤ s3Sites ⟨name, .ok gs, pol, .ok rules, .ok st⟩
    have h3 : (if rules.isEmpty then
        [[("Bucket", name), ("Issue", noEncryptionMsg)]]
       else ([] : List Finding)).length ≤ 1 := by split <;> simp
    have h4 : (if st = some "Enabled" then ([] : List Finding)
        else [[("Bucket", name), ("Issue", noVersioningMsg)]]).length ≤ 1 := by
      split <;> simp
    simp only [List.length_append, s3Sites]
    omega

lemma s3Go_length_le (bs : List S3Bucket)
    (h : ∀ b ∈ bs, bucketNoExc b = true) :
    (s3Go bs).length ≤ (bs.map s3Sites).sum := by
  induction bs with
  | nil => simp [s3Go]
  | cons b bs ih =>
    have hb := scanBucket_noExc b (h b (List.mem_cons_self b bs))
    rcases hsb : scanBucket b with ⟨fs, exc⟩
    rw [hsb] at hb
    obtain ⟨h2, hlen⟩ := hb
    simp only at h2 hlen
    subst h2
    have hrec := ih (fun j hj => h j (List.mem_cons_of_mem b hj))
    have hstep : s3Go (b :: bs) = fs ++ s3Go bs := by
      rw [s3Go, hsb]
    rw [hstep, List.length_append, List.map_cons, List.sum_cons]
    omega

lemma scanIpRange_length_le (sgId : String) (fp tp : Option Int) (r : IpRange) :
    (scanIpRange sgId fp tp r).length ≤ 2 := by
  rcases fp with _ | p
  · show ((if r.cidrIp = some "0.0.0.0/0" then
        [[("SecurityGroup", sgId), ("Issue", openIssue none tp)]]
       else []) ++ []).length ≤ 2
    split <;> simp
  · show ((if r.cidrIp = some "0.0.0.0/0" then
        [[("SecurityGroup", sgId), ("Issue", openIssue (some p) tp)]]
       else [])
      ++ (if p ∈ DANGEROUS_PORTS then
            [[("SecurityGroup", sgId), ("Issue", dangerIssue p)]]
          else [])).length ≤ 2
    split <;> split <;> simp

lemma flat_ranges_length_le (sgId : String) (fp tp : Option Int)
    (rs : List IpRange) :
    (rs.flatMap (scanIpRange sgId fp tp)).length ≤ 2 * rs.length := by
  induction rs with
  | nil => simp
  | cons r rs ih =>
    rw [List.flatMap_cons, List.length_append]
    have := scanIpRange_length_le sgId fp tp r
    simp only [List.length_cons]
    omega

lemma flat_perms_length_le (gid : String) (ps : List IpPermission) :
    (ps.flatMap (scanPermission gid)).length
      ≤ 2 * (ps.map (fun p => p.ipRanges.length)).sum := by
  induction ps with
  | nil => simp
  | cons p ps ih =>
    rw [List.flatMap_cons, List.length_append, List.map_cons, List.sum_cons]
    have := flat_ranges_length_le gid (normPorts p).1 (normPorts p).2 p.ipRanges
    rw [scanPermission]
    omega

lemma sg_scan_length_le (sgs : List SecurityGroup) :
    (scan_security_groups (.ok sgs)).length ≤ 2 * (sgs.map sgSites).sum := by
  show (sgs.flatMap scanGroup).length ≤ _
  induction sgs with
  | nil => simp
  | cons sg sgs ih =>
    rw [List.flatMap_cons, List.length_append, List.map_cons, List.sum_cons]
    have := flat_perms_length_le sg.groupId sg.ipPermissions
    rw [scanGroup] at *
    have h1 : (sg.ipPermissions.flatMap (scanPermission sg.groupId)).length
        ≤ 2 * sgSites sg := this
    omega

/-- The zero-findings scenario bucket: no public grants, private policy,
encryption configured, versioning enabled. -/
def compliantBucket : S3Bucket :=
  ⟨"b1", .ok [⟨some "owner-canonical", some "FULL_CONTROL"⟩],
   .ok (some false), .ok [()], .ok (some "Enabled")⟩

/-- C5 amended: each rule-evaluation site yields at most one finding per
rule, so an exception-free scan is bounded by the number of sites, which
is per bucket its ACL-grant count plus the three remaining checks, and
per security group two findings per IP range; the resources × rules bound
of the claim holds only when each resource has at most one sub-entry per
rule.  A bucket triggering no rule contributes zero findings. -/
theorem C5_output_bounded_per_site (bs : List S3Bucket)
    (sgs : List SecurityGroup) (h : ∀ b ∈ bs, bucketNoExc b = true) :
    (scan_s3_buckets (.ok bs)).length ≤ (bs.map s3Sites).sum
    ∧ (scan_security_groups (.ok sgs)).length ≤ 2 * (sgs.map sgSites).sum
    ∧ scan_s3_buckets (.ok [compliantBucket]) = [] :=
  ⟨s3Go_length_le bs h, sg_scan_length_le sgs, rfl⟩

/-- Witness for C5 amended, at the five-grant bucket and the open
security group. -/
theorem C5_output_bounded_per_site_witness :
    (∀ b ∈ [cexBucket], bucketNoExc b = true)
    ∧ ((scan_s3_buckets (.ok [cexBucket])).length ≤ ([cexBucket].map s3Sites).sum
       ∧ (scan_security_groups (.ok [sgOpen22])).length
           ≤ 2 * ([sgOpen22].map sgSites).sum
       ∧ scan_s3_buckets (.ok [compliantBucket]) = []) :=
  ⟨by decide, C5_output_bounded_per_site [cexBucket] [sgOpen22] (by decide)⟩

/-- The root-MFA finding is the only single-entry finding of the IAM
scan: every other check emits dicts with at least two keys. -/
lemma root_not_in_flat {α : Type} (g : α → List Finding) (l : List α)
    (hg : ∀ a, ∀ f ∈ g a, 2 ≤ f.length) :
    [("Issue", rootMfaMsg)] ∉ l.flatMap g := by
  intro hmem
  rcases List.mem_flatMap.mp hmem with ⟨a, _, hf⟩
  have h2 := hg a _ hf
  simp at h2

lemma overlyPermissive_min_len (p : IamPolicy) :
    ∀ f ∈ overlyPermissive p, 2 ≤ f.length := by
  intro f hf
  unfold overlyPermissive at hf
  rcases List.mem_flatMap.mp hf with ⟨s, _, hf2⟩
  split at hf2
  · simp at hf2
    rw [hf2]
    simp
  · cases hf2

lemma inactiveKeys_min_len (u : IamUser) :
    ∀ f ∈ inactiveKeys u, 2 ≤ f.length := by
  intro f hf
  unfold inactiveKeys at hf
  rcases List.mem_flatMap.mp hf with ⟨k, _, hf2⟩
  split at hf2
  · cases hf2
  · simp at hf2
    rw [hf2]
    simp

lemma userAdmin_min_len (u : IamUser) :
    ∀ f ∈ userAdmin u, 2 ≤ f.length := by
  intro f hf
  unfold userAdmin at hf
  rcases List.mem_flatMap.mp hf with ⟨pn, _, hf2⟩
  split at hf2
  · simp at hf2
    rw [hf2]
    simp
  · cases hf2

lemma roleAdmin_min_len (r : IamRole) :
    ∀ f ∈ roleAdmin r, 2 ≤ f.length := by
  intro f hf
  unfold roleAdmin at hf
  rcases List.mem_flatMap.mp hf with ⟨pn, _, hf2⟩
  split at hf2
  · simp at hf2
    rw [hf2]
    simp
  · cases hf2

/-- C10: in an exception-free IAM scan the root-MFA finding appears
exactly once when the `AccountMFAEnabled` summary value is absent (the
`.get(..., 0)` default) or equal to 0, and not at all otherwise. -/
theorem C10_root_mfa_fail_closed (env : IAMEnv) (flag : Option Int)
    (ps : List IamPolicy) (us : List IamUser) (rs : List IamRole)
    (hs : env.summary = .ok flag) (hp : env.policies = .ok ps)
    (hu : env.users = .ok us) (hr : env.roles = .ok rs) :
    (run_all_checks env).count [("Issue", rootMfaMsg)]
      = if flag.getD 0 = 0 then 1 else 0 := by
  rcases env with ⟨s, p, u, r⟩
  simp only at hs hp hu hr
  subst hs hp hu hr
  show (check_root_account_usage flag [] ++ ps.flatMap overlyPermissive
      ++ us.flatMap inactiveKeys ++ us.flatMap userAdmin
      ++ rs.flatMap roleAdmin).count [("Issue", rootMfaMsg)] = _
  rw [List.count_append, List.count_append, List.count_append,
      List.count_append]
  rw [List.count_eq_zero.mpr (root_not_in_flat overlyPermissive ps overlyPermissive_min_len),
      List.count_eq_zero.mpr (root_not_in_flat inactiveKeys us inactiveKeys_min_len),
      List.count_eq_zero.mpr (root_not_in_flat userAdmin us userAdmin_min_len),
      List.count_eq_zero.mpr (root_not_in_flat roleAdmin rs roleAdmin_min_len)]
  unfold check_root_account_usage
  split <;> rfl

/-- An IAM environment whose account summary lacks `AccountMFAEnabled`. -/
def iamEnvNoMfaKey : IAMEnv := ⟨.ok none, .ok [], .ok [], .ok []⟩

/-- Witness for C10: an absent summary key yields the finding once. -/
theorem C10_root_mfa_fail_closed_witness :
    iamEnvNoMfaKey.summary = .ok none
    ∧ (run_all_checks iamEnvNoMfaKey).count [("Issue", rootMfaMsg)]
        = if (none : Option Int).getD 0 = 0 then 1 else 0 :=
  ⟨rfl, C10_root_mfa_fail_closed iamEnvNoMfaKey none [] [] [] rfl rfl rfl rfl⟩
